import Mathlib

/-!
# Verification of the web_analyzer resilient-extraction core

Shallow embedding of the structured-response extractor
(`backend/services/ai_service.py`), the knowledge-graph entity cleaning and
merging (`backend/services/knowledge_graph.py`), the topical-map retry logic
and multi-target fan-out (`backend/services/topical_map.py`), the comparator
fallback (`backend/services/comparator.py`), the progress tracker
(`backend/utils/progress_tracker.py`) and the orchestrator
(`backend/api/routes.py` / `backend/utils/storage.py`).

Conventions:
* Python strings are Lean `String`s; indices are character (code-point)
  indices, matching Python `str` semantics for the ASCII data involved.
* Python `str.find` / `str.rfind` return `Int` (`-1` when absent), as in
  Python.
* External network / database effects are parameters ("oracles"); everything
  the repository computes from their results is embedded.
-/

namespace WebAnalyzer

/-! ## Python-style string helpers -/

/-- Whitespace stripped by Python `str.strip()` (ASCII subset). -/
def isPyStripWs (c : Char) : Bool :=
  c = ' ' ∨ c = '\t' ∨ c = '\n' ∨ c = '\r' ∨ c = '\x0b' ∨ c = '\x0c'

/-- Whitespace matched by the regex class `\s` (ASCII subset). -/
def isReWs (c : Char) : Bool :=
  c = ' ' ∨ c = '\t' ∨ c = '\n' ∨ c = '\r' ∨ c = '\x0b' ∨ c = '\x0c'

/-- Whitespace recognised by Python `json.loads` between tokens. -/
def isJsonWs (c : Char) : Bool :=
  c = ' ' ∨ c = '\t' ∨ c = '\n' ∨ c = '\r'

/-- Python `s.strip()`. -/
def pyStrip (s : String) : String :=
  String.mk (((s.data.dropWhile isPyStripWs).reverse.dropWhile isPyStripWs).reverse)

/-- First index (if any) at which `needle` occurs in `hay`, as lists. -/
def findSubList (hay needle : List Char) : Option Nat :=
  if needle.isPrefixOf hay then some 0
  else
    match hay with
    | [] => none
    | _ :: t => (findSubList t needle).map (· + 1)

/-- Python `hay.find(needle, start)`: character index of the first occurrence
at or after `start`, `-1` when absent. -/
def pyFind (hay needle : String) (start : Nat) : Int :=
  match findSubList (hay.data.drop start) needle.data with
  | some k => Int.ofNat (start + k)
  | none => -1

/-- Python `hay.rfind(needle)`: index of the last occurrence, `-1` if none. -/
def pyRFind (hay needle : String) : Int :=
  match ((List.range (hay.data.length + 1)).filter
      (fun p => needle.data.isPrefixOf (hay.data.drop p))).getLast? with
  | some p => Int.ofNat p
  | none => -1

/-- Python `s[a:b]` for `0 ≤ a ≤ b` (clamped at the end of the string). -/
def pySlice (s : String) (a b : Nat) : String :=
  String.mk ((s.data.drop a).take (b - a))

/-- Python `s[a:]`. -/
def pyDropFrom (s : String) (a : Nat) : String :=
  String.mk (s.data.drop a)

/-- Python `s[:b]`. -/
def pyTakeN (s : String) (b : Nat) : String :=
  String.mk (s.data.take b)

/-- Number of occurrences of the character `c` (Python `s.count(c)`). -/
def countChar (s : String) (c : Char) : Nat :=
  s.data.count c

/-- Python `needle in hay` on strings (substring containment). -/
def strContains (hay needle : String) : Bool :=
  (findSubList hay.data needle.data).isSome

/-- Python `s.startswith(p)`. -/
def pyStartsWith (s p : String) : Bool :=
  p.data.isPrefixOf s.data

/-- Python `str.isalpha()`: non-empty and all characters alphabetic. -/
def pyIsAlpha (s : String) : Bool :=
  !s.data.isEmpty && s.data.all Char.isAlpha

/-! ## JSON values and a strict parser (Python `json.loads`)

Numbers keep their source lexeme: none of the verified properties depend on
numeric value semantics, only on which texts parse and on the shape of the
result. -/

inductive Json where
  | null : Json
  | bool (b : Bool) : Json
  | num (lexeme : String) : Json
  | str (s : String) : Json
  | arr (items : List Json) : Json
  | obj (fields : List (String × Json)) : Json

/-- Insert into an association list with Python-`dict` semantics: an existing
key is overwritten in place, a new key is appended. -/
def dictInsert {α : Type} : List (String × α) → String → α → List (String × α)
  | [], k, v => [(k, v)]
  | (k', v') :: t, k, v =>
    if k' = k then (k, v) :: t else (k', v') :: dictInsert t k v

/-- Association-list lookup (Python `dict` indexing / `.get`). -/
def dictGet {α : Type} : List (String × α) → String → Option α
  | [], _ => none
  | (k', v) :: t, k => if k' = k then some v else dictGet t k

/-- Skip JSON inter-token whitespace. -/
def skipJsonWs (cs : List Char) : List Char :=
  cs.dropWhile isJsonWs

/-- Hexadecimal digit value, as accepted in a JSON `\uXXXX` escape. -/
def hexVal? (c : Char) : Option Nat :=
  if c.isDigit then some (c.toNat - '0'.toNat)
  else if 'a' ≤ c ∧ c ≤ 'f' then some (c.toNat - 'a'.toNat + 10)
  else if 'A' ≤ c ∧ c ≤ 'F' then some (c.toNat - 'A'.toNat + 10)
  else none

/-- Parse a JSON string body after the opening quote.  Returns the decoded
characters and the remainder after the closing quote.  Unescaped control
characters are rejected, as by `json.loads` in strict mode. -/
def parseJsonStringBody : Nat → List Char → Option (List Char × List Char)
  | 0, _ => none
  | _, [] => none
  | fuel + 1, c :: rest =>
    if c = '"' then some ([], rest)
    else if c = '\\' then
      match rest with
      | [] => none
      | e :: rest' =>
        if e = '"' then
          (parseJsonStringBody fuel rest').map (fun p => ('"' :: p.1, p.2))
        else if e = '\\' then
          (parseJsonStringBody fuel rest').map (fun p => ('\\' :: p.1, p.2))
        else if e = '/' then
          (parseJsonStringBody fuel rest').map (fun p => ('/' :: p.1, p.2))
        else if e = 'b' then
          (parseJsonStringBody fuel rest').map (fun p => ('\x08' :: p.1, p.2))
        else if e = 'f' then
          (parseJsonStringBody fuel rest').map (fun p => ('\x0c' :: p.1, p.2))
        else if e = 'n' then
          (parseJsonStringBody fuel rest').map (fun p => ('\n' :: p.1, p.2))
        else if e = 'r' then
          (parseJsonStringBody fuel rest').map (fun p => ('\r' :: p.1, p.2))
        else if e = 't' then
          (parseJsonStringBody fuel rest').map (fun p => ('\t' :: p.1, p.2))
        else if e = 'u' then
          match rest' with
          | h1 :: h2 :: h3 :: h4 :: rest'' =>
            match hexVal? h1, hexVal? h2, hexVal? h3, hexVal? h4 with
            | some v1, some v2, some v3, some v4 =>
              (parseJsonStringBody fuel rest'').map
                (fun p => (Char.ofNat (((v1 * 16 + v2) * 16 + v3) * 16 + v4) :: p.1, p.2))
            | _, _, _, _ => none
          | _ => none
        else none
    else if c.toNat < 0x20 then none
    else (parseJsonStringBody fuel rest).map (fun p => (c :: p.1, p.2))

/-- Parse a JSON number lexeme `-?(0|[1-9][0-9]*)(\.[0-9]+)?([eE][-+]?[0-9]+)?`.
An integer part starting with `0` consumes exactly the `0` (as in Python's
grammar: `0123` parses `0` and leaves `123` as trailing data). -/
def parseJsonNumber (cs : List Char) : Option (String × List Char) :=
  let (sign, afterSign) :=
    match cs with
    | '-' :: t => (['-'], t)
    | _ => (([] : List Char), cs)
  let intPart :=
    match afterSign with
    | '0' :: _ => ['0']
    | _ => afterSign.takeWhile Char.isDigit
  if intPart.isEmpty then none
  else
    let afterInt := afterSign.drop intPart.length
    let (fracPart, afterFrac) :=
      match afterInt with
      | '.' :: t =>
        let ds := t.takeWhile Char.isDigit
        if ds.isEmpty then (([] : List Char), afterInt)
        else ('.' :: ds, t.drop ds.length)
      | _ => (([] : List Char), afterInt)
    let (expPart, afterExp) :=
      match afterFrac with
      | e :: t =>
        if e = 'e' ∨ e = 'E' then
          let (pre, t') :=
            match t with
            | s :: t'' => if s = '+' ∨ s = '-' then ([e, s], t'') else ([e], t)
            | [] => ([e], t)
          let ds := t'.takeWhile Char.isDigit
          if ds.isEmpty then (([] : List Char), afterFrac)
          else (pre ++ ds, t'.drop ds.length)
        else (([] : List Char), afterFrac)
      | [] => (([] : List Char), afterFrac)
    some (String.mk (sign ++ intPart ++ fracPart ++ expPart), afterExp)

mutual

/-- Parse one JSON value, skipping leading whitespace.  Fuel-indexed; the
entry point `json_loads` supplies sufficient fuel for any input. -/
def parseJsonValue : Nat → List Char → Option (Json × List Char)
  | 0, _ => none
  | fuel + 1, cs =>
    match skipJsonWs cs with
    | [] => none
    | c :: rest =>
      if c = '\x7b' then
        match skipJsonWs rest with
        | '\x7d' :: rest' => some (Json.obj [], rest')
        | inner =>
          (parseJsonMembers fuel inner).map
            (fun p => (Json.obj (p.1.foldl (fun acc kv => dictInsert acc kv.1 kv.2) []), p.2))
      else if c = '[' then
        match skipJsonWs rest with
        | ']' :: rest' => some (Json.arr [], rest')
        | inner =>
          (parseJsonItems fuel inner).map (fun p => (Json.arr p.1, p.2))
      else if c = '"' then
        (parseJsonStringBody (rest.length + 1) rest).map
          (fun p => (Json.str (String.mk p.1), p.2))
      else if ['t', 'r', 'u', 'e'].isPrefixOf (c :: rest) then
        some (Json.bool true, (c :: rest).drop 4)
      else if ['f', 'a', 'l', 's', 'e'].isPrefixOf (c :: rest) then
        some (Json.bool false, (c :: rest).drop 5)
      else if ['n', 'u', 'l', 'l'].isPrefixOf (c :: rest) then
        some (Json.null, (c :: rest).drop 4)
      else if ['N', 'a', 'N'].isPrefixOf (c :: rest) then
        some (Json.num "NaN", (c :: rest).drop 3)
      else if ['I', 'n', 'f', 'i', 'n', 'i', 't', 'y'].isPrefixOf (c :: rest) then
        some (Json.num "Infinity", (c :: rest).drop 8)
      else if ['-', 'I', 'n', 'f', 'i', 'n', 'i', 't', 'y'].isPrefixOf (c :: rest) then
        some (Json.num "-Infinity", (c :: rest).drop 9)
      else
        (parseJsonNumber (c :: rest)).map (fun p => (Json.num p.1, p.2))

/-- Parse one or more `"key": value` object members, positioned at a key.
A comma must be followed by another key, so trailing commas are rejected. -/
def parseJsonMembers : Nat → List Char → Option (List (String × Json) × List Char)
  | 0, _ => none
  | fuel + 1, cs =>
    match skipJsonWs cs with
    | '"' :: rest =>
      match parseJsonStringBody (rest.length + 1) rest with
      | none => none
      | some (key, afterKey) =>
        match skipJsonWs afterKey with
        | ':' :: afterColon =>
          match parseJsonValue fuel afterColon with
          | none => none
          | some (v, afterVal) =>
            match skipJsonWs afterVal with
            | ',' :: afterComma =>
              (parseJsonMembers fuel afterComma).map
                (fun p => ((String.mk key, v) :: p.1, p.2))
            | '\x7d' :: afterBrace => some ([(String.mk key, v)], afterBrace)
            | _ => none
        | _ => none
    | _ => none

/-- Parse one or more array items, positioned at an item.  A comma must be
followed by another value, so trailing commas are rejected. -/
def parseJsonItems : Nat → List Char → Option (List Json × List Char)
  | 0, _ => none
  | fuel + 1, cs =>
    match parseJsonValue fuel cs with
    | none => none
    | some (v, afterVal) =>
      match skipJsonWs afterVal with
      | ',' :: afterComma =>
        (parseJsonItems fuel afterComma).map (fun p => (v :: p.1, p.2))
      | ']' :: afterBracket => some ([v], afterBracket)
      | _ => none

end

/-- Python `json.loads`: parse the whole string as one JSON document;
`none` corresponds to `json.JSONDecodeError` (including trailing data). -/
def json_loads (s : String) : Option Json :=
  match parseJsonValue (2 * s.data.length + 4) s.data with
  | some (v, rest) => if (skipJsonWs rest).isEmpty then some v else none
  | none => none

/-! ## `AIService` string cleanup and repair (`backend/services/ai_service.py`) -/

/-- Lookahead for the regex `,(\s*[}\]])`: a whitespace run followed by a
closing brace or bracket. -/
def closerAfterWs (cs : List Char) : Option (List Char × Char × List Char) :=
  match cs.drop (cs.takeWhile isReWs).length with
  | c :: tail =>
    if c = '\x7d' ∨ c = ']' then some (cs.takeWhile isReWs, c, tail) else none
  | [] => none

/-- Python `re.sub(r',(\s*[}\]])', r'\1', s)`: drop each comma immediately
followed (modulo whitespace) by a closing brace/bracket, scanning left to
right and resuming after each replaced span.  Fuel-indexed (structural) so
that proofs can evaluate it; the wrapper supplies `cs.length` fuel, which
always suffices since every step consumes at least one character. -/
def stripTrailingCommaReAux : Nat → List Char → List Char
  | 0, cs => cs
  | _, [] => []
  | fuel + 1, c :: rest =>
    if c = ',' then
      match closerAfterWs rest with
      | some (ws, cl, tail) => ws ++ cl :: stripTrailingCommaReAux fuel tail
      | none => ',' :: stripTrailingCommaReAux fuel rest
    else c :: stripTrailingCommaReAux fuel rest

def stripTrailingCommaRe (cs : List Char) : List Char :=
  stripTrailingCommaReAux cs.length cs

/-- Python `re.sub(r'//.*?\n', '\n', s)`: each `//`-to-newline span becomes a
single newline; a trailing `//` comment with no newline is left alone. -/
def stripLineCommentsAux : Nat → List Char → List Char
  | 0, cs => cs
  | _, [] => []
  | fuel + 1, '/' :: '/' :: rest =>
    (match findSubList rest ['\n'] with
     | some i => '\n' :: stripLineCommentsAux fuel (rest.drop (i + 1))
     | none => '/' :: '/' :: rest)
  | fuel + 1, c :: rest => c :: stripLineCommentsAux fuel rest

def stripLineComments (cs : List Char) : List Char :=
  stripLineCommentsAux cs.length cs

/-- Python `re.sub(r'/\*.*?\*/', '', s, flags=re.DOTALL)`: each non-greedy
`/* ... */` span is removed; an unterminated `/*` is left alone. -/
def stripBlockCommentsAux : Nat → List Char → List Char
  | 0, cs => cs
  | _, [] => []
  | fuel + 1, '/' :: '*' :: rest =>
    (match findSubList rest ['*', '/'] with
     | some i => stripBlockCommentsAux fuel (rest.drop (i + 2))
     | none => '/' :: '*' :: rest)
  | fuel + 1, c :: rest => c :: stripBlockCommentsAux fuel rest

def stripBlockComments (cs : List Char) : List Char :=
  stripBlockCommentsAux cs.length cs

/-- `AIService._clean_json_string`. -/
def clean_json_string (json_str : String) : String :=
  let s1 := String.mk (stripTrailingCommaRe json_str.data)
  let s2 := String.mk (stripBlockComments (stripLineComments s1.data))
  let first_brace := pyFind s2 "\x7b" 0
  let first_bracket := pyFind s2 "[" 0
  let s3 :=
    if first_brace ≥ 0 ∧ (first_bracket < 0 ∨ first_brace < first_bracket) then
      pyDropFrom s2 first_brace.toNat
    else if first_bracket ≥ 0 then pyDropFrom s2 first_bracket.toNat
    else s2
  let last_brace := pyRFind s3 "\x7d"
  let last_bracket := pyRFind s3 "]"
  let s4 :=
    if last_brace ≥ 0 ∧ last_brace > last_bracket then pyTakeN s3 (last_brace.toNat + 1)
    else if last_bracket ≥ 0 then pyTakeN s3 (last_bracket.toNat + 1)
    else s3
  pyStrip s4

/-- `AIService._repair_truncated_json`. -/
def repair_truncated_json (json_str : String) : String :=
  let last_valid_positions : List Int :=
    [pyRFind json_str "\",",
     pyRFind json_str "\",\n",
     pyRFind json_str "\x7d,",
     pyRFind json_str "],",
     pyRFind json_str ": \""]
  let last_complete := (last_valid_positions.filter (fun p => p > 0)).foldl max (-1)
  let s1 :=
    if last_complete > 0 then
      let remaining := pyStrip (pyDropFrom json_str (last_complete.toNat + 2))
      if remaining ≠ "" ∧
          (countChar remaining '"' % 2 ≠ 0 ∨
            countChar remaining '\x7b' ≠ countChar remaining '\x7d' ∨
            countChar remaining '[' ≠ countChar remaining ']') then
        pyTakeN json_str (last_complete.toNat + 1)
      else json_str
    else json_str
  let open_braces := countChar s1 '\x7b'
  let close_braces := countChar s1 '\x7d'
  let open_brackets := countChar s1 '['
  let close_brackets := countChar s1 ']'
  let s2 := String.mk (stripTrailingCommaRe s1.data)
  let s3 :=
    if close_brackets < open_brackets then
      s2 ++ String.mk (List.replicate (open_brackets - close_brackets) ']')
    else s2
  if close_braces < open_braces then
    s3 ++ String.mk (List.replicate (open_braces - close_braces) '\x7d')
  else s3

/-- Scan state of `AIService._extract_partial_json`'s character loop. -/
structure EpjState where
  depth : Int
  current : String
  inString : Bool
  escapeNext : Bool
  items : List String

/-- One character step of `AIService._extract_partial_json`'s loop. -/
def epjStep (st : EpjState) (c : Char) : EpjState :=
  if st.escapeNext then
    { st with current := st.current.push c, escapeNext := false }
  else if c = '\\' then
    { st with escapeNext := true, current := st.current.push c }
  else
    let st := if c = '"' then { st with inString := !st.inString } else st
    if !st.inString ∧ c = '\x7b' then
      let st := if st.depth = 0 then { st with current := "" } else st
      let st := { st with depth := st.depth + 1 }
      if st.depth > 0 then { st with current := st.current.push c } else st
    else if !st.inString ∧ c = '\x7d' then
      let st := { st with depth := st.depth - 1 }
      if st.depth = 0 ∧ st.current ≠ "" then
        { st with items := st.items ++ [st.current ++ "\x7d"], current := "" }
      else if st.depth > 0 then { st with current := st.current.push c } else st
    else
      if st.depth > 0 then { st with current := st.current.push c } else st

/-- `AIService._extract_partial_json`: for array-shaped input, collect every
top-level object that closes cleanly; otherwise fall back to truncation
repair. -/
def extract_incomplete_json (json_str : String) : String :=
  if pyStartsWith (pyStrip json_str) "[" then
    let final := json_str.data.foldl epjStep ⟨0, "", false, false, []⟩
    if !final.items.isEmpty then
      "[" ++ String.intercalate "," final.items ++ "]"
    else repair_truncated_json json_str
  else repair_truncated_json json_str

/-- `AIService._parse_json_with_repair`: direct parse, then cleanup, then
truncation repair, then partial extraction.  `none` corresponds to the final
`json.JSONDecodeError` escaping the method. -/
def parse_json_with_repair (json_str : String) : Option Json :=
  match json_loads json_str with
  | some v => some v
  | none =>
    let cleaned := clean_json_string json_str
    match json_loads cleaned with
    | some v => some v
    | none =>
      match json_loads (repair_truncated_json cleaned) with
      | some v => some v
      | none => json_loads (extract_incomplete_json cleaned)

/-- Strategy 1 of `AIService.extract_json`: candidate from a ```` ```json ````
fenced block (everything to end of text when the closing fence is missing). -/
def fencedJsonCandidate (response : String) : Option String :=
  let f := pyFind response "```json" 0
  if f < 0 then none
  else
    let json_start := f.toNat + 7
    let json_end := pyFind response "```" json_start
    if json_end > Int.ofNat json_start then
      some (pyStrip (pySlice response json_start json_end.toNat))
    else some (pyStrip (pyDropFrom response json_start))

/-- Strategy 2 of `AIService.extract_json`: candidate from any fenced block,
skipping a language identifier line when present. -/
def fencedAnyCandidate (response : String) : Option String :=
  let f := pyFind response "```" 0
  if f < 0 then none
  else
    let js0 := f.toNat + 3
    let seg := pyStrip (pySlice response js0 (js0 + 10))
    let firstLine := String.mk (seg.data.takeWhile (fun c => c ≠ '\n'))
    let json_start := if pyIsAlpha firstLine then (pyFind response "\n" js0 + 1).toNat else js0
    let json_end := pyFind response "```" json_start
    if json_end > Int.ofNat json_start then
      some (pyStrip (pySlice response json_start json_end.toNat))
    else some (pyStrip (pyDropFrom response json_start))

/-- Strategy 3 of `AIService.extract_json`:
`re.search(r'\[\s*\{[\s\S]*\}\s*\]', response)` — leftmost start, greedy
interior, so the span runs from the first `[`-then-`{` to the last
`}`-then-`]` completion. -/
def arrayRegexCandidate (response : String) : Option String :=
  let cs := response.data
  (List.range cs.length).findSome? (fun p =>
    if cs.get? p = some '[' then
      let afterB := cs.drop (p + 1)
      let ws := afterB.takeWhile isReWs
      match afterB.drop ws.length with
      | '\x7b' :: _ =>
        let bracePos := p + 1 + ws.length
        let closes := (List.range cs.length).filter (fun q =>
          decide (bracePos < q) && decide (cs.get? q = some '\x7d') &&
            (let t := cs.drop (q + 1)
             decide ((t.drop (t.takeWhile isReWs).length).head? = some ']')))
        match closes.getLast? with
        | some q =>
          let t := cs.drop (q + 1)
          let endIdx := q + 1 + (t.takeWhile isReWs).length
          some (String.mk ((cs.drop p).take (endIdx - p + 1)))
        | none => none
      | _ => none
    else none)

/-- Strategy 4 of `AIService.extract_json`:
`re.search(r'\{[\s\S]*\}', response)` — from the first `{` to the last `}`
(a match exists exactly when some `}` follows the first `{`). -/
def objectRegexCandidate (response : String) : Option String :=
  let cs := response.data
  match cs.findIdx? (fun c => c = '\x7b'),
      ((List.range cs.length).filter (fun j => cs.get? j = some '\x7d')).getLast? with
  | some i, some j =>
    if i < j then some (String.mk ((cs.drop i).take (j - i + 1))) else none
  | _, _ => none

/-- Message of the `ValueError` (the spec's `ExtractionError`) raised by
`AIService.extract_json`, carrying the first 500 characters. -/
def extractionFailureMsg (response : String) : String :=
  "Could not extract valid JSON from AI response. First 500 chars: " ++ pyTakeN response 500

/-- The pure text-to-structure part of `AIService.extract_json`: the five
parsing strategies applied to the (stripped) model response, in order, first
success winning; `Except.error` is the final `ValueError`. -/
def extract_json_text (rawResponse : String) : Except String Json :=
  let response := pyStrip rawResponse
  match (fencedJsonCandidate response).bind parse_json_with_repair with
  | some v => .ok v
  | none =>
  match (fencedAnyCandidate response).bind parse_json_with_repair with
  | some v => .ok v
  | none =>
  match (arrayRegexCandidate response).bind parse_json_with_repair with
  | some v => .ok v
  | none =>
  match (objectRegexCandidate response).bind parse_json_with_repair with
  | some v => .ok v
  | none =>
  match parse_json_with_repair response with
  | some v => .ok v
  | none => .error (extractionFailureMsg response)

/-! ## Knowledge-graph entity extraction (`backend/services/knowledge_graph.py`) -/

mutual

/-- Python `repr` of a parsed JSON value (as used by `str` on non-strings):
`None` / `True` / `False` for the singletons, the lexeme for numbers, and
bracketed element lists for containers. -/
def pyRepr : Json → String
  | .null => "None"
  | .bool true => "True"
  | .bool false => "False"
  | .num lexeme => lexeme
  | .str s => String.singleton (Char.ofNat 39) ++ s ++ String.singleton (Char.ofNat 39)
  | .arr xs => "[" ++ pyReprList xs ++ "]"
  | .obj kvs => "\x7b" ++ pyReprKVs kvs ++ "\x7d"

def pyReprList : List Json → String
  | [] => ""
  | [x] => pyRepr x
  | x :: xs => pyRepr x ++ ", " ++ pyReprList xs

def pyReprKVs : List (String × Json) → String
  | [] => ""
  | [(k, v)] =>
    String.singleton (Char.ofNat 39) ++ k ++ String.singleton (Char.ofNat 39) ++ ": " ++ pyRepr v
  | (k, v) :: kvs =>
    String.singleton (Char.ofNat 39) ++ k ++ String.singleton (Char.ofNat 39) ++ ": " ++ pyRepr v
      ++ ", " ++ pyReprKVs kvs

end

/-- Python `str(item)` for a parsed JSON value. -/
def pyStrOfJson : Json → String
  | .str s => s
  | j => pyRepr j

/-- The five entity categories of `extract_entities_for_domain`, as lists in
the source's fixed key order. -/
structure EntityDict where
  services : List String
  products : List String
  technologies : List String
  audiences : List String
  topics : List String
deriving DecidableEq

def emptyEntities : EntityDict := ⟨[], [], [], [], []⟩

/-- One category of the validate-and-clean step of
`KnowledgeGraphGenerator.extract_entities_for_domain`:
`[str(item)[:40] for item in entities[key][:12]]` when the key holds a list,
else `[]`.  (When the extraction result is not a dict at all, the Python
subscript raises inside the enclosing `try` and every category ends up
empty, which coincides with this definition.) -/
def cleanEntityField (entities : Json) (key : String) : List String :=
  match entities with
  | .obj fields =>
    match dictGet fields key with
    | some (.arr items) => (items.take 12).map (fun it => pyTakeN (pyStrOfJson it) 40)
    | _ => []
  | _ => []

/-- `KnowledgeGraphGenerator.extract_entities_for_domain`, given the outcome
of its single `ai_service.extract_json` call.  The second component counts
the Gateway completions issued: the method makes exactly one call and, on
any failure, immediately returns all-empty categories. -/
def extract_entities_for_domain (outcome : Except String Json) : EntityDict × Nat :=
  match outcome with
  | .ok entities =>
    ({ services := cleanEntityField entities "services",
       products := cleanEntityField entities "products",
       technologies := cleanEntityField entities "technologies",
       audiences := cleanEntityField entities "audiences",
       topics := cleanEntityField entities "topics" }, 1)
  | .error _ => (emptyEntities, 1)

/-- The inner merge loop of `KnowledgeGraphGenerator.generate_graph`
(lines 193–196): `if entity and entity not in all_entities[t]: append`. -/
def mergeEntityList (acc : List String) (incoming : List String) : List String :=
  incoming.foldl (fun acc e => if e ≠ "" ∧ e ∉ acc then acc ++ [e] else acc) acc

/-- The per-domain accumulation of `generate_graph`: entity dictionaries of
the domain's URLs merged into `all_entities`, category by category. -/
def mergeEntities (ds : List EntityDict) : EntityDict :=
  ds.foldl (fun all d =>
    { services := mergeEntityList all.services d.services,
      products := mergeEntityList all.products d.products,
      technologies := mergeEntityList all.technologies d.technologies,
      audiences := mergeEntityList all.audiences d.audiences,
      topics := mergeEntityList all.topics d.topics }) emptyEntities

/-! ## Topical-map generation (`backend/services/topical_map.py`) -/

/-- The substring `generate_topical_map_with_ai` looks for in a `ValueError`
message to decide whether to retry with the simplified prompt. -/
def extractionErrorNeedle : String := "Could not extract valid JSON"

/-- The extraction core of `TopicalMapGenerator.generate_topical_map_with_ai`
(lines 448–522): one comprehensive `extract_json` call; on a `ValueError`
whose message contains the extraction-failure text, one retry with the
simplified prompt whose outcome — success or failure — is final; any other
error propagates at once.  The second component counts Gateway calls. -/
def topical_map_core (firstOutcome retryOutcome : Except String Json) :
    Except String Json × Nat :=
  match firstOutcome with
  | .ok r => (.ok r, 1)
  | .error e =>
    if strContains e extractionErrorNeedle then (retryOutcome, 2)
    else (.error e, 1)

/-- The fields of one scraped result (`WebScraper.scrape_url` dictionary)
consumed by the downstream pipeline.  `status` is `"success"` or `"error"`. -/
structure Scraped where
  url : String
  status : String
  error : Option String := none
  title : String := ""
  description : String := ""
  h2_headings : List String := []
  text_content : String := ""
  markdown : String := ""
  source : String := ""
deriving DecidableEq

/-- The fields of `TopicalMapData` consumed by the comparator. -/
structure TopicalMapData where
  url : String
  business_model : String := ""
  target_audiences : List String := []
  key_topics : List String := []
  conversion_methods : List String := []
deriving DecidableEq

/-- `TopicalMapGenerator.generate_multiple`, with the per-URL generation
outcome supplied as an oracle (it runs `generate_topical_map_with_ai`
concurrently with `return_exceptions=True`).  Tasks are created only for
successfully scraped entries; exceptions are filtered out; if tasks existed
but none succeeded a `ValueError` is raised; with no tasks at all the
result is the empty list. -/
def generate_multiple (scraped_data_list : List Scraped)
    (generateOutcome : Scraped → Except String TopicalMapData) :
    Except String (List TopicalMapData) :=
  let tasks := scraped_data_list.filter (fun d => d.status = "success")
  if tasks.isEmpty then .ok []
  else
    let results := tasks.map generateOutcome
    let successful := results.filterMap (fun r =>
      match r with
      | .ok t => some t
      | .error _ => none)
    if successful.isEmpty then .error "All topical map generations failed"
    else .ok successful

/-! ## Comparator (`backend/services/comparator.py`) -/

/-- One element of the `websites_data` list assembled by
`Comparator.compare_websites_with_ai` for the AI prompt. -/
structure WebsiteInfo where
  url : String
  title : String
  description : String
  business_model : String
  target_audiences : List String
  key_topics : List String
  conversion_methods : List String
  h2_headings : List String
  text_preview : String
deriving DecidableEq

/-- The `websites_data` accumulation loop of `compare_websites_with_ai`:
`zip(scraped_data_list, topical_maps)`, skipping entries whose scrape did
not succeed. -/
def websitesData (scraped_data_list : List Scraped)
    (topical_maps : List TopicalMapData) : List WebsiteInfo :=
  (scraped_data_list.zip topical_maps).filterMap (fun p =>
    if p.1.status = "success" then
      some
        { url := p.1.url
          title := p.1.title
          description := p.1.description
          business_model := p.2.business_model
          target_audiences := p.2.target_audiences
          key_topics := p.2.key_topics
          conversion_methods := p.2.conversion_methods
          h2_headings := p.1.h2_headings.take 10
          text_preview :=
            if p.1.source = "firecrawl" ∧ p.1.markdown ≠ "" then pyTakeN p.1.markdown 1500
            else pyTakeN p.1.text_content 1000 }
    else none)

/-- Round-half-even of `i / u` to two decimals, as a rational.  This equals
Python `round(i / u, 2)` for every `0 < u ≤ 20` (the only denominators the
fallback can produce, since each topic set has at most 10 elements): for
such fractions the nearest double is within `2⁻⁵⁰` of the rational, far
closer than the `1/4000` minimum gap to a rounding boundary, and the exact
tie cases (denominator 8) are represented exactly, so float rounding and
rational rounding agree. -/
def round2frac (i u : Nat) : ℚ :=
  let n := 100 * i
  let q := n / u
  let k :=
    if 2 * (n % u) < u then q
    else if u < 2 * (n % u) then q + 1
    else if q % 2 = 0 then q else q + 1
  (k : ℚ) / 100

/-- The `url_topics` dictionary of `Comparator._fallback_comparison`:
url ↦ first 10 key topics, for successfully scraped zipped pairs. -/
def fallbackUrlTopics (scraped_data_list : List Scraped)
    (topical_maps : List TopicalMapData) : List (String × List String) :=
  (scraped_data_list.zip topical_maps).foldl (fun acc p =>
    if p.1.status = "success" then dictInsert acc p.1.url (p.2.key_topics.take 10) else acc) []

/-- One entry of the fallback similarity matrix: `1.0` on the diagonal,
otherwise the two-decimal rounded Jaccard index of the two topic sets
(`set(url_topics.get(url, []))`), with constant `0.3` when either set is
empty. -/
def fallbackSimScore (url_topics : List (String × List String)) (url1 url2 : String) : ℚ :=
  if url1 = url2 then 1
  else
    let topics1 := ((dictGet url_topics url1).getD []).toFinset
    let topics2 := ((dictGet url_topics url2).getD []).toFinset
    if topics1.Nonempty ∧ topics2.Nonempty then
      let inter := (topics1 ∩ topics2).card
      let union := (topics1 ∪ topics2).card
      if 0 < union then round2frac inter union else 3 / 10
    else 3 / 10

/-- The nested similarity-matrix dictionary of `_fallback_comparison`. -/
def fallbackSimilarityMatrix (url_topics : List (String × List String))
    (urls : List String) : List (String × List (String × ℚ)) :=
  urls.foldl (fun m url1 =>
    dictInsert m url1
      (urls.foldl (fun row url2 => dictInsert row url2 (fallbackSimScore url_topics url1 url2)) []))
    []

/-- Deduplication preserving first-encounter order (the iteration order of a
Python `Counter`'s keys). -/
def firstDedup (l : List String) : List String :=
  l.foldl (fun acc t => if t ∈ acc then acc else acc ++ [t]) []

/-- `Comparator._fallback_comparison`'s result (`ComparisonData` built
without AI).  Similarity scores are rationals; see `round2frac`. -/
structure FallbackComparison where
  business_models : List (String × String)
  service_overlap : List String
  unique_services : List (String × List String)
  audience_comparison : List (String × List String)
  technology_stack : List (String × List String)
  geographic_coverage : List (String × List String)
  similarity_matrix : List (String × List (String × ℚ))

/-- `Comparator._fallback_comparison`. -/
def fallback_comparison (scraped_data_list : List Scraped)
    (topical_maps : List TopicalMapData) : FallbackComparison :=
  let business_models := topical_maps.foldl (fun m t => dictInsert m t.url t.business_model) []
  let url_topics := fallbackUrlTopics scraped_data_list topical_maps
  let all_topics := (scraped_data_list.zip topical_maps).foldl (fun acc p =>
    if p.1.status = "success" then acc ++ p.2.key_topics.take 10 else acc) []
  let service_overlap := (firstDedup all_topics |>.filter (fun t => 1 < all_topics.count t)).take 10
  let unique_services := url_topics.map (fun p =>
    (p.1, (p.2.filter (fun t => all_topics.count t = 1)).take 5))
  let audience_comparison := topical_maps.foldl (fun m t => dictInsert m t.url t.target_audiences) []
  let technology_stack := scraped_data_list.foldl (fun m d =>
    if d.status = "success" then dictInsert m d.url ["Web", "Cloud"] else m) []
  let geographic_coverage := scraped_data_list.foldl (fun m d =>
    if d.status = "success" then dictInsert m d.url ["Not specified"] else m) []
  let urls := topical_maps.map (fun t => t.url)
  { business_models := business_models
    service_overlap := service_overlap
    unique_services := unique_services
    audience_comparison := audience_comparison
    technology_stack := technology_stack
    geographic_coverage := geographic_coverage
    similarity_matrix := fallbackSimilarityMatrix url_topics urls }

/-- Field lookup on a parsed JSON object (Python `dict.get`). -/
def jget (j : Json) (k : String) : Option Json :=
  match j with
  | .obj fields => dictGet fields k
  | _ => none

/-- The `ComparisonData` assembled from an AI extraction result by
`compare_websites_with_ai`: each field via `.get` with its default, with
`service_overlap` truncated to 15.  `none` models the `TypeError` raised
when `service_overlap` is present but not a list (or the result is not a
dict), which the enclosing `except` turns into the fallback path. -/
structure ComparisonDataAI where
  business_models : Json
  service_overlap : List Json
  unique_services : Json
  audience_comparison : Json
  technology_stack : Json
  geographic_coverage : Json
  similarity_matrix : Json

def comparisonFromResult (j : Json) : Option ComparisonDataAI :=
  match j with
  | .obj _ =>
    match (jget j "service_overlap").getD (.arr []) with
    | .arr xs =>
      some
        { business_models := (jget j "business_models").getD (.obj [])
          service_overlap := xs.take 15
          unique_services := (jget j "unique_services").getD (.obj [])
          audience_comparison := (jget j "audience_comparison").getD (.obj [])
          technology_stack := (jget j "technology_stack").getD (.obj [])
          geographic_coverage := (jget j "geographic_coverage").getD (.obj [])
          similarity_matrix := (jget j "similarity_matrix").getD (.obj []) }
    | _ => none
  | _ => none

/-- Result of `Comparator.compare_websites_with_ai`: the AI-built
`ComparisonData`, or the deterministic fallback when the AI call or its
validation fails. -/
inductive ComparisonOutcome where
  | aiResult (data : ComparisonDataAI)
  | fallback (data : FallbackComparison)

/-- `Comparator.compare_websites_with_ai` (also `compare_websites`, which
just delegates).  `aiOutcome` is the outcome of the one
`ai_service.extract_json` call, as a function of the prompt's
`websites_data`. -/
def compare_websites_with_ai (scraped_data_list : List Scraped)
    (topical_maps : List TopicalMapData)
    (aiOutcome : List WebsiteInfo → Except String Json) : Option ComparisonOutcome :=
  if scraped_data_list.length < 2 then none
  else
    match aiOutcome (websitesData scraped_data_list topical_maps) with
    | .ok j =>
      match comparisonFromResult j with
      | some c => some (.aiResult c)
      | none => some (.fallback (fallback_comparison scraped_data_list topical_maps))
    | .error _ => some (.fallback (fallback_comparison scraped_data_list topical_maps))

/-! ## Progress tracker (`backend/utils/progress_tracker.py`)

Timestamps (`started_at` / `updated_at`) carry wall-clock strings that no
claim concerns; they are omitted from the entry.  All operations run under
the tracker's single lock, so a run's writes form a sequence. -/

structure PEntry where
  current_step : Nat
  total_steps : Nat
  status : String
  message : String
  percentage : Nat
deriving DecidableEq

/-- The in-memory `_progress` dictionary. -/
abbrev PMap := List (String × PEntry)

def dictRemove {α : Type} : List (String × α) → String → List (String × α)
  | [], _ => []
  | (k', v) :: t, k => if k' = k then t else (k', v) :: dictRemove t k

/-- `ProgressTracker.create`. -/
def pt_create (m : PMap) (analysisId : String) (totalSteps : Nat) : PMap :=
  dictInsert m analysisId
    { current_step := 0, total_steps := totalSteps, status := "starting",
      message := "Initializing analysis...", percentage := 0 }

/-- `ProgressTracker.update`.  `int((step / total) * 100)` agrees with
natural division `step * 100 / total` for the totals used here (5). -/
def pt_update (m : PMap) (analysisId : String) (step : Nat) (status message : String) : PMap :=
  match dictGet m analysisId with
  | none => m
  | some e =>
    dictInsert m analysisId
      { e with current_step := step, status := status, message := message,
               percentage := step * 100 / e.total_steps }

/-- `ProgressTracker.complete`. -/
def pt_complete (m : PMap) (analysisId : String) (message : String) : PMap :=
  match dictGet m analysisId with
  | none => m
  | some e =>
    dictInsert m analysisId
      { e with current_step := e.total_steps, status := "complete",
               message := message, percentage := 100 }

/-- `ProgressTracker.fail` (leaves `current_step` and `percentage` alone). -/
def pt_fail (m : PMap) (analysisId : String) (error : String) : PMap :=
  match dictGet m analysisId with
  | none => m
  | some e => dictInsert m analysisId { e with status := "failed", message := "Error: " ++ error }

/-- `ProgressTracker.get`. -/
def pt_get (m : PMap) (analysisId : String) : Option PEntry :=
  dictGet m analysisId

/-- `ProgressTracker.cleanup`. -/
def pt_cleanup (m : PMap) (analysisId : String) : PMap :=
  if (dictGet m analysisId).isSome then dictRemove m analysisId else m

/-! ## Orchestrator (`backend/api/routes.py` `process_analysis`,
`backend/utils/storage.py` `DatabaseStore.update_analysis`) -/

/-- One progress-tracker write issued by `process_analysis` for its
analysis id. -/
inductive POp where
  | create (totalSteps : Nat)
  | update (step : Nat) (status message : String)
  | complete (message : String)
  | fail (error : String)
deriving DecidableEq

def applyOp (analysisId : String) (m : PMap) : POp → PMap
  | .create t => pt_create m analysisId t
  | .update s st msg => pt_update m analysisId s st msg
  | .complete msg => pt_complete m analysisId msg
  | .fail e => pt_fail m analysisId e

/-- The persisted `Analysis` row fields the orchestrator touches.  Created
with status `processing` and no error by `DatabaseStore.create_analysis`. -/
structure RecordState where
  status : String
  error : Option String
  scraped_data : Option (List Scraped)
  topical_maps : Option (List TopicalMapData)
  comparison : Option ComparisonOutcome

def initialRecord : RecordState :=
  { status := "processing", error := none, scraped_data := none,
    topical_maps := none, comparison := none }

/-- The two field-dictionaries `process_analysis` passes to
`DatabaseStore.update_analysis`: the success payload (no `status` key) and
the failure payload (`status` + `error`). -/
inductive UpdateData where
  | results (scraped : List Scraped) (maps : List TopicalMapData)
      (comparison : Option ComparisonOutcome)
  | failure (error : String)

/-- `DatabaseStore.update_analysis`: set the supplied fields; when no
`status` key is supplied, force status `completed`. -/
def update_analysis (r : RecordState) (d : UpdateData) : RecordState :=
  match d with
  | .results s m c =>
    { r with scraped_data := some s, topical_maps := some m, comparison := c,
             status := "completed" }
  | .failure e => { r with status := "failed", error := some e }

/-- Outcome of one `process_analysis` run: the final persisted record and
the sequence of progress-tracker writes. -/
structure OrchestratorRun where
  record : RecordState
  ops : List POp

/-- The `except` block of `process_analysis`: write the progress failure,
then attempt the failure-status database update (itself guarded — when the
database update raises, the record is left untouched). -/
def failFinish (r : RecordState) (ops : List POp) (e : String)
    (dbFailureOutcome : Option String) : OrchestratorRun :=
  { record :=
      match dbFailureOutcome with
      | none => update_analysis r (.failure e)
      | some _ => r,
    ops := ops ++ [POp.fail e] }

/-- `process_analysis`.  External effects are oracles: `scrapeOutcome` is
`scraper.scrape_multiple` (which never raises — failures are entries with a
non-`success` status); `graphOutcome` is an exception escaping the
knowledge-graph stage (`some` message) or normal completion (`none`);
`topicalOutcome` is the per-URL outcome inside `generate_multiple`;
`compOutcome` the comparator's AI call; `dbMainOutcome` /
`dbFailureOutcome` the two possible database-update attempts. -/
def process_analysis (urls : List String) (scrapeOutcome : String → Scraped)
    (graphOutcome : Option String)
    (topicalOutcome : Scraped → Except String TopicalMapData)
    (compOutcome : List WebsiteInfo → Except String Json)
    (dbMainOutcome dbFailureOutcome : Option String) : OrchestratorRun :=
  let scraped := urls.map scrapeOutcome
  let ops1 : List POp :=
    [.create 5, .update 1 "scraping" ("Scraping " ++ toString urls.length ++ " website(s)...")]
  let ops2 := ops1 ++ [.update 2 "knowledge_graph" "Generating knowledge graph with AI..."]
  match graphOutcome with
  | some e => failFinish initialRecord ops2 e dbFailureOutcome
  | none =>
    let ops3 := ops2 ++ [.update 3 "topical_map" "Creating topical maps and content strategy..."]
    match generate_multiple scraped topicalOutcome with
    | .error e => failFinish initialRecord ops3 e dbFailureOutcome
    | .ok maps =>
      let ops4 := ops3 ++ [.update 4 "comparison"
        (if 2 ≤ urls.length then "Comparing websites..."
         else "Skipping comparison (single URL)...")]
      let comparison :=
        if 2 ≤ urls.length then compare_websites_with_ai scraped maps compOutcome else none
      let ops5 := ops4 ++ [.update 5 "finalizing" "Saving results..."]
      match dbMainOutcome with
      | some e => failFinish initialRecord ops5 e dbFailureOutcome
      | none =>
        { record := update_analysis initialRecord (.results scraped maps comparison),
          ops := ops5 ++ [.complete "Analysis complete! Redirecting to results..."] }

/-! ## Derived views and concrete run instances used by the claims -/

/-- Entry of the nested similarity-matrix dictionary. -/
def matrixLookup (m : List (String × List (String × ℚ))) (u1 u2 : String) : Option ℚ :=
  (dictGet m u1).bind (fun row => dictGet row u2)

/-- The tracker states reached by a run's successive writes (fresh map). -/
def progressStates (analysisId : String) (ops : List POp) : List PMap :=
  ops.scanl (fun m op => applyOp analysisId m op) []

/-- The sequence of step indices readable from the tracker along a run. -/
def progressSteps (analysisId : String) (ops : List POp) : List Nat :=
  (progressStates analysisId ops).filterMap
    (fun m => (pt_get m analysisId).map (fun e => e.current_step))

/-- A target whose content acquisition failed (scraper result with
status `error`). -/
def C1_failScrape : Scraped :=
  { url := "https://example.com", status := "error", error := some "Request timeout" }

/-- The C1 scenario: one target, acquisition fails, every downstream oracle
well-behaved. -/
def C1_run : OrchestratorRun :=
  process_analysis ["https://example.com"] (fun _ => C1_failScrape) none
    (fun _ => Except.error "never called") (fun _ => Except.error "never called") none none

/-- A successfully scraped target for the C1 witness scenario. -/
def C1_okScrape : Scraped :=
  { url := "https://example.com", status := "success", title := "Example",
    text_content := "hello" }

def C2_s1 : Scraped :=
  { url := "https://a.com", status := "success", title := "A", text_content := "alpha" }

def C2_s2 : Scraped :=
  { url := "https://b.com", status := "error", error := some "HTTP 500" }

def C2_s3 : Scraped :=
  { url := "https://c.com", status := "success", title := "C", text_content := "gamma" }

def C2_t1 : TopicalMapData :=
  { url := "https://a.com", business_model := "SaaS", key_topics := ["A1", "A2"] }

def C2_t3 : TopicalMapData :=
  { url := "https://c.com", business_model := "B2C", key_topics := ["C1", "C2"] }

def C2_scrapeOutcome (u : String) : Scraped :=
  if u = "https://a.com" then C2_s1 else if u = "https://b.com" then C2_s2 else C2_s3

def C2_topicalOutcome (d : Scraped) : Except String TopicalMapData :=
  if d.url = "https://a.com" then .ok C2_t1
  else if d.url = "https://c.com" then .ok C2_t3
  else .error "never called"

/-- The C2 scenario: three targets, target 2's acquisition fails, both
topical generations succeed, the comparison AI call fails (fallback). -/
def C2_run : OrchestratorRun :=
  process_analysis ["https://a.com", "https://b.com", "https://c.com"] C2_scrapeOutcome none
    C2_topicalOutcome (fun _ => Except.error "AI comparison failed") none none

/-- Two-success-target scrape list, parameterised by the urls. -/
def C7_scraped (u1 u2 : String) : List Scraped :=
  [{ url := u1, status := "success" }, { url := u2, status := "success" }]

/-- The corresponding topical maps carrying the two key-topic lists. -/
def C7_maps (u1 u2 : String) (ts1 ts2 : List String) : List TopicalMapData :=
  [{ url := u1, key_topics := ts1 }, { url := u2, key_topics := ts2 }]

/-- Eleven distinct topics: ten shared ones plus `X`. -/
def C7_topics1 : List String :=
  ["T1", "T2", "T3", "T4", "T5", "T6", "T7", "T8", "T9", "T10", "X"]

/-- Eleven distinct topics: the same ten shared ones plus `Y`. -/
def C7_topics2 : List String :=
  ["T1", "T2", "T3", "T4", "T5", "T6", "T7", "T8", "T9", "T10", "Y"]

/-- An extraction result with 12 distinct services. -/
def C8_resultA : Json :=
  Json.obj [("services", Json.arr
    [Json.str "A1", Json.str "A2", Json.str "A3", Json.str "A4", Json.str "A5",
     Json.str "A6", Json.str "A7", Json.str "A8", Json.str "A9", Json.str "A10",
     Json.str "A11", Json.str "A12"])]

/-- A second extraction result with 12 further distinct services. -/
def C8_resultB : Json :=
  Json.obj [("services", Json.arr
    [Json.str "B1", Json.str "B2", Json.str "B3", Json.str "B4", Json.str "B5",
     Json.str "B6", Json.str "B7", Json.str "B8", Json.str "B9", Json.str "B10",
     Json.str "B11", Json.str "B12"])]

/-- Invariant of one cleaned extraction category: at most 12 entries, every
label at most 40 characters (`entities[key][:12]`, `str(item)[:40]`). -/
abbrev CleanCat (cat : List String) : Prop :=
  cat.length ≤ 12 ∧ ∀ e ∈ cat, e.length ≤ 40

/-- `CleanCat` for all five categories of an entity dictionary. -/
abbrev CleanDict (d : EntityDict) : Prop :=
  CleanCat d.services ∧ CleanCat d.products ∧ CleanCat d.technologies ∧
    CleanCat d.audiences ∧ CleanCat d.topics

/-- Invariant of a merged per-domain category: no duplicates, every label
non-empty and at most 40 characters, and length bounded by `bound`. -/
abbrev MergedCat (bound : Nat) (cat : List String) : Prop :=
  cat.Nodup ∧ (∀ e ∈ cat, e.length ≤ 40 ∧ e ≠ "") ∧ cat.length ≤ bound

/-! ## Theorems -/

/-- C4: extraction applied to the raw text `[{"x":1},{"x":2},{"x":3` (third
object truncated) returns exactly the array `[{"x":1},{"x":2}]`: both
top-level objects that close cleanly are kept and the incomplete trailing
object is discarded. -/
theorem C4_partial_array_extraction :
    extract_json_text "[\x7b\"x\":1\x7d,\x7b\"x\":2\x7d,\x7b\"x\":3" =
      Except.ok (Json.arr [Json.obj [("x", Json.num "1")], Json.obj [("x", Json.num "2")]]) := by
  rfl

/-- C3 (claim refuted): on the truncated input `{"a": 1, "b": [1,2,` the
repair step emits `{"a": 1, "b": [1,2,]}` — the trailing comma survives
because the comma-stripping substitution runs before the missing closers are
appended — so every strategy's parse fails and `extract_json` raises the
extraction `ValueError`, contrary to the claim that this input never
raises. -/
theorem C3_truncation_repair_raises :
    repair_truncated_json (clean_json_string "\x7b\"a\": 1, \"b\": [1,2,") =
        "\x7b\"a\": 1, \"b\": [1,2,]\x7d" ∧
      json_loads "\x7b\"a\": 1, \"b\": [1,2,]\x7d" = none ∧
      extract_json_text "\x7b\"a\": 1, \"b\": [1,2," =
        Except.error
          "Could not extract valid JSON from AI response. First 500 chars: \x7b\"a\": 1, \"b\": [1,2," :=
  ⟨rfl, rfl, rfl⟩

/-- C5 counterexample: `"42"` contains neither `{` nor `[`, yet extraction
does not fail fast with an `ExtractionError` — the strategies run and the
whole-text parse succeeds, returning the number 42. -/
theorem C5_counterexample_scalar_parses :
    strContains "42" "\x7b" = false ∧ strContains "42" "[" = false ∧
      extract_json_text "42" = Except.ok (Json.num "42") :=
  ⟨rfl, rfl, rfl⟩

/-- C5 amended: there is no pre-check for the absence of `{` / `[` — the
strategies are simply attempted in order.  For a prose-only response that no
strategy can parse (such as `"Sorry, I cannot help with that."`), extraction
fails with the `ExtractionError` `ValueError` carrying the first 500
characters of the (stripped) raw text. -/
theorem C5_amended_prose_fails_with_payload :
    extract_json_text "Sorry, I cannot help with that." =
        Except.error (extractionFailureMsg "Sorry, I cannot help with that.") ∧
      extractionFailureMsg "Sorry, I cannot help with that." =
        "Could not extract valid JSON from AI response. First 500 chars: Sorry, I cannot help with that." ∧
      pyTakeN "Sorry, I cannot help with that." 500 = "Sorry, I cannot help with that." :=
  ⟨rfl, rfl, rfl⟩

/-- C6 counterexample: when the knowledge-graph entity extraction fails, the
sub-result is marked empty after exactly ONE Gateway call — there is no
retry with a simplified prompt (which would make the call count 2). -/
theorem C6_counterexample_no_retry_in_graph_extraction :
    extract_entities_for_domain (Except.error "extraction failed") = (emptyEntities, 1) ∧
      (extract_entities_for_domain (Except.error "extraction failed")).2 ≠ 2 :=
  ⟨rfl, by decide⟩

/-- C6 amended: the graph-extraction step issues exactly one Gateway call and
marks the sub-result empty on any failure (never fatal, no retry); the
retry-once-with-simplified-prompt policy lives in the topical-map extraction
step instead, where it fires exactly on extraction-failure `ValueError`s and
where the retry's outcome — including a second failure — is final (fatal to
that target's topical map). -/
theorem C6_amended_retry_policy :
    (∀ outcome : Except String Json, (extract_entities_for_domain outcome).2 = 1) ∧
      (∀ e : String, (extract_entities_for_domain (Except.error e)).1 = emptyEntities) ∧
      (∀ (r : Json) (retry : Except String Json), topical_map_core (.ok r) retry = (.ok r, 1)) ∧
      (∀ (e : String) (retry : Except String Json),
        strContains e extractionErrorNeedle = true → topical_map_core (.error e) retry = (retry, 2)) ∧
      (∀ (e : String) (retry : Except String Json),
        strContains e extractionErrorNeedle = false →
          topical_map_core (.error e) retry = (.error e, 1)) := by
  refine ⟨fun o => ?_, fun e => rfl, fun r retry => rfl, fun e retry h => ?_, fun e retry h => ?_⟩
  · cases o <;> rfl
  · simp [topical_map_core, h]
  · simp [topical_map_core, h]

theorem C6_amended_retry_policy_witness :
    topical_map_core
        (Except.error
          "Could not extract valid JSON from AI response. First 500 chars: hello")
        (Except.ok (Json.obj [])) = (Except.ok (Json.obj []), 2) ∧
      topical_map_core (Except.error "DeepSeek API key not configured")
        (Except.ok (Json.obj [])) = (Except.error "DeepSeek API key not configured", 1) :=
  ⟨C6_amended_retry_policy.2.2.2.1 _ _ (by rfl),
   C6_amended_retry_policy.2.2.2.2 _ _ (by rfl)⟩

/-- C10: every `ProgressTracker` operation invoked with an analysis id that
has no entry returns without effect: the map is unchanged, and `get` yields
`None`.  Progress emission therefore cannot fail the calling pipeline. -/
theorem C10_missing_id_operations_are_noops (m : PMap) (analysisId : String)
    (h : pt_get m analysisId = none) (step : Nat) (status message cmsg emsg : String) :
    pt_update m analysisId step status message = m ∧
      pt_complete m analysisId cmsg = m ∧
      pt_fail m analysisId emsg = m ∧
      pt_cleanup m analysisId = m ∧
      pt_get m analysisId = none := by
  unfold pt_get at h
  refine ⟨?_, ?_, ?_, ?_, h⟩
  · simp [pt_update, h]
  · simp [pt_complete, h]
  · simp [pt_fail, h]
  · simp [pt_cleanup, h]

theorem C10_missing_id_operations_are_noops_witness :
    pt_update [("other", ⟨0, 5, "starting", "m", 0⟩)] "missing" 3 "s" "msg" =
        [("other", ⟨0, 5, "starting", "m", 0⟩)] ∧
      pt_complete [("other", ⟨0, 5, "starting", "m", 0⟩)] "missing" "done" =
        [("other", ⟨0, 5, "starting", "m", 0⟩)] ∧
      pt_fail [("other", ⟨0, 5, "starting", "m", 0⟩)] "missing" "err" =
        [("other", ⟨0, 5, "starting", "m", 0⟩)] ∧
      pt_cleanup [("other", ⟨0, 5, "starting", "m", 0⟩)] "missing" =
        [("other", ⟨0, 5, "starting", "m", 0⟩)] ∧
      pt_get [("other", ⟨0, 5, "starting", "m", 0⟩)] "missing" = none :=
  C10_missing_id_operations_are_noops _ "missing" (by rfl) 3 "s" "msg" "done" "err"

/-- C1 counterexample: a run with exactly one target whose content
acquisition fails ends with the record in status `completed` and **no**
record-level error — not in status `failed` with a cause, as claimed.
(`scrape_multiple` reports the failure as a result entry, so
`generate_multiple` receives no tasks and returns `[]` without raising, and
the final update forces status `completed`.) -/
theorem C1_counterexample_total_failure_completes :
    C1_run.record.status = "completed" ∧ C1_run.record.status ≠ "failed" ∧
      C1_run.record.error = none ∧ C1_run.record.topical_maps = some [] :=
  ⟨rfl, by decide, rfl, rfl⟩

/-- C1 amended: a run in which no target's acquisition succeeds ends
`completed` with no record-level error (and empty per-target results); the
record reaches terminal status `failed` with a non-empty cause only when a
stage raises — in particular, when at least one acquisition succeeds but
every topical-map generation fails, the cause is the generic
`"All topical map generations failed"`, not the first target's failure
cause. -/
theorem C1_amended_record_termination :
    (∀ (urls : List String) (scrapeOutcome : String → Scraped)
        (topicalOutcome : Scraped → Except String TopicalMapData)
        (compOutcome : List WebsiteInfo → Except String Json),
      (∀ u ∈ urls, ¬ (scrapeOutcome u).status = "success") →
      (process_analysis urls scrapeOutcome none topicalOutcome compOutcome none
          none).record.status = "completed" ∧
        (process_analysis urls scrapeOutcome none topicalOutcome compOutcome none
          none).record.error = none) ∧
    (∀ (urls : List String) (scrapeOutcome : String → Scraped)
        (topicalOutcome : Scraped → Except String TopicalMapData)
        (compOutcome : List WebsiteInfo → Except String Json),
      (∃ u ∈ urls, (scrapeOutcome u).status = "success") →
      (∀ d : Scraped, ∃ msg, topicalOutcome d = Except.error msg) →
      (process_analysis urls scrapeOutcome none topicalOutcome compOutcome none
          none).record.status = "failed" ∧
        (process_analysis urls scrapeOutcome none topicalOutcome compOutcome none
          none).record.error = some "All topical map generations failed" ∧
        "All topical map generations failed" ≠ "") := by
  constructor
  · intro urls so tOut cOut hfail
    have htasks : (urls.map so).filter (fun d => d.status = "success") = [] := by
      rw [List.filter_eq_nil_iff]
      intro d hd
      obtain ⟨u, hu, rfl⟩ := List.mem_map.mp hd
      simpa using hfail u hu
    constructor <;>
      simp [process_analysis, generate_multiple, htasks, update_analysis, initialRecord]
  · intro urls so tOut cOut hex hko
    obtain ⟨u, hu, hsucc⟩ := hex
    have hmem : so u ∈ (urls.map so).filter (fun d => d.status = "success") := by
      rw [List.mem_filter]
      exact ⟨List.mem_map.mpr ⟨u, hu, rfl⟩, by simpa using hsucc⟩
    have htasks :
        ((urls.map so).filter (fun d => d.status = "success")).isEmpty = false := by
      rcases hres : (urls.map so).filter (fun d => d.status = "success") with _ | ⟨a, l⟩
      · rw [hres] at hmem; cases hmem
      · rw [hres]; rfl
    have hnone :
        (((urls.map so).filter (fun d => d.status = "success")).map tOut).filterMap
            (fun r =>
              match r with
              | Except.ok t => some t
              | Except.error _ => none) = [] := by
      rw [List.filterMap_eq_nil_iff]
      intro r hr
      obtain ⟨d, _, rfl⟩ := List.mem_map.mp hr
      obtain ⟨msg, hmsg⟩ := hko d
      rw [hmsg]
    refine ⟨?_, ?_, by decide⟩ <;>
      simp [process_analysis, generate_multiple, htasks, hnone, failFinish,
        update_analysis, initialRecord]

theorem C1_amended_record_termination_witness :
    ((process_analysis ["https://example.com"] (fun _ => C1_failScrape) none
          (fun _ => Except.error "never called") (fun _ => Except.error "never called") none
          none).record.status = "completed" ∧
        (process_analysis ["https://example.com"] (fun _ => C1_failScrape) none
          (fun _ => Except.error "never called") (fun _ => Except.error "never called") none
          none).record.error = none) ∧
      ((process_analysis ["https://example.com"] (fun _ => C1_okScrape) none
          (fun _ => Except.error "boom") (fun _ => Except.error "never called") none
          none).record.status = "failed" ∧
        (process_analysis ["https://example.com"] (fun _ => C1_okScrape) none
          (fun _ => Except.error "boom") (fun _ => Except.error "never called") none
          none).record.error = some "All topical map generations failed" ∧
        "All topical map generations failed" ≠ "") :=
  ⟨C1_amended_record_termination.1 _ _ _ _
      (fun u _ => by simp [C1_failScrape]),
   C1_amended_record_termination.2 _ _ _ _
      ⟨"https://example.com", by simp, rfl⟩ (fun d => ⟨"boom", rfl⟩)⟩

/-- C2 evidence of the divergence: with three targets of which target 2's
acquisition fails, the record does end `completed` with topical maps for
targets 1 and 3 only — but the comparison input is built by
`zip(scraped_data_list, topical_maps)` over lists of different lengths, so
`websites_data` pairs target 1 with its map and then pairs the *failed*
target 2 with target 3's map (skipped): the comparison covers only target 1,
and in the fallback path target 3's topic set is missing, scoring the
constant 0.3 against target 1 instead of its Jaccard index. -/
theorem C2_zip_misalignment_drops_succeeded_target :
    generate_multiple [C2_s1, C2_s2, C2_s3] C2_topicalOutcome = Except.ok [C2_t1, C2_t3] ∧
      C2_run.record.status = "completed" ∧
      C2_run.record.topical_maps = some [C2_t1, C2_t3] ∧
      websitesData [C2_s1, C2_s2, C2_s3] [C2_t1, C2_t3] =
        [{ url := "https://a.com", title := "A", description := "",
           business_model := "SaaS", target_audiences := [], key_topics := ["A1", "A2"],
           conversion_methods := [], h2_headings := [], text_preview := "alpha" }] ∧
      (websitesData [C2_s1, C2_s2, C2_s3] [C2_t1, C2_t3]).length = 1 ∧
      fallbackUrlTopics [C2_s1, C2_s2, C2_s3] [C2_t1, C2_t3] =
        [("https://a.com", ["A1", "A2"])] ∧
      matrixLookup
          (fallback_comparison [C2_s1, C2_s2, C2_s3] [C2_t1, C2_t3]).similarity_matrix
          "https://a.com" "https://c.com" = some (3 / 10) := by
  exact ⟨rfl, rfl, rfl, rfl, rfl, rfl, rfl⟩

theorem mergeEntityList_cons (acc : List String) (e : String) (xs : List String) :
    mergeEntityList acc (e :: xs) =
      mergeEntityList (if e ≠ "" ∧ e ∉ acc then acc ++ [e] else acc) xs := rfl

theorem mergeEntityList_nodup {acc : List String} (h : acc.Nodup) (xs : List String) :
    (mergeEntityList acc xs).Nodup := by
  induction xs generalizing acc with
  | nil => exact h
  | cons e xs ih =>
    rw [mergeEntityList_cons]
    by_cases hc : e ≠ "" ∧ e ∉ acc
    · rw [if_pos hc]
      refine ih ?_
      simp [List.nodup_append, h, hc.2]
    · rw [if_neg hc]; exact ih h

theorem mergeEntityList_mem {acc xs : List String} {x : String}
    (h : x ∈ mergeEntityList acc xs) : x ∈ acc ∨ (x ∈ xs ∧ x ≠ "") := by
  induction xs generalizing acc with
  | nil => exact Or.inl h
  | cons e xs ih =>
    rw [mergeEntityList_cons] at h
    by_cases hc : e ≠ "" ∧ e ∉ acc
    · rw [if_pos hc] at h
      rcases ih h with hacc | hxs
      · rcases List.mem_append.mp hacc with h1 | h2
        · exact Or.inl h1
        · have hx : x = e := by simpa using h2
          exact Or.inr ⟨by simp [hx], hx ▸ hc.1⟩
      · exact Or.inr ⟨List.mem_cons_of_mem _ hxs.1, hxs.2⟩
    · rw [if_neg hc] at h
      rcases ih h with hacc | hxs
      · exact Or.inl hacc
      · exact Or.inr ⟨List.mem_cons_of_mem _ hxs.1, hxs.2⟩

theorem mergeEntityList_length (acc xs : List String) :
    (mergeEntityList acc xs).length ≤ acc.length + xs.length := by
  induction xs generalizing acc with
  | nil => simp [mergeEntityList]
  | cons e xs ih =>
    rw [mergeEntityList_cons]
    by_cases hc : e ≠ "" ∧ e ∉ acc
    · rw [if_pos hc]
      have := ih (acc ++ [e])
      simp only [List.length_append, List.length_cons, List.length_nil] at this ⊢
      omega
    · rw [if_neg hc]
      have := ih acc
      simp only [List.length_cons] at this ⊢
      omega

theorem pyTakeN_length_le (s : String) (n : Nat) : (pyTakeN s n).length ≤ n := by
  show ((s.data.take n).length ≤ n)
  simp [List.length_take]

theorem cleanEntityField_clean (entities : Json) (key : String) :
    CleanCat (cleanEntityField entities key) := by
  have hnil : CleanCat ([] : List String) := by constructor <;> simp
  have harr : ∀ items : List Json,
      CleanCat ((items.take 12).map (fun it => pyTakeN (pyStrOfJson it) 40)) := by
    intro items
    constructor
    · simp only [List.length_map]
      exact List.length_take_le 12 items
    · intro e he
      obtain ⟨it, -, rfl⟩ := List.mem_map.mp he
      have h40 := pyTakeN_length_le (pyStrOfJson it) 40
      omega
  cases entities with
  | obj fields =>
    rcases h : dictGet fields key with - | v
    · simp only [cleanEntityField, h]; exact hnil
    · cases v <;> simp only [cleanEntityField, h] <;> first | exact harr _ | exact hnil
  | null => exact hnil
  | bool b => exact hnil
  | num l => exact hnil
  | str s => exact hnil
  | arr xs => exact hnil

theorem extract_entities_clean (o : Except String Json) :
    CleanDict (extract_entities_for_domain o).1 := by
  cases o with
  | ok entities =>
    exact ⟨cleanEntityField_clean entities _, cleanEntityField_clean entities _,
      cleanEntityField_clean entities _, cleanEntityField_clean entities _,
      cleanEntityField_clean entities _⟩
  | error e =>
    refine ⟨?_, ?_, ?_, ?_, ?_⟩ <;> (constructor <;> simp [extract_entities_for_domain, emptyEntities])

theorem mergeEntities_foldl (ds : List EntityDict) (init : EntityDict) :
    ds.foldl (fun all d =>
      { services := mergeEntityList all.services d.services,
        products := mergeEntityList all.products d.products,
        technologies := mergeEntityList all.technologies d.technologies,
        audiences := mergeEntityList all.audiences d.audiences,
        topics := mergeEntityList all.topics d.topics }) init =
      { services := ds.foldl (fun a d => mergeEntityList a d.services) init.services,
        products := ds.foldl (fun a d => mergeEntityList a d.products) init.products,
        technologies := ds.foldl (fun a d => mergeEntityList a d.technologies) init.technologies,
        audiences := ds.foldl (fun a d => mergeEntityList a d.audiences) init.audiences,
        topics := ds.foldl (fun a d => mergeEntityList a d.topics) init.topics } := by
  induction ds generalizing init with
  | nil => rfl
  | cons d ds ih => simp only [List.foldl_cons]; rw [ih]

theorem mergeEntities_eq (ds : List EntityDict) :
    mergeEntities ds =
      { services := ds.foldl (fun a d => mergeEntityList a d.services) [],
        products := ds.foldl (fun a d => mergeEntityList a d.products) [],
        technologies := ds.foldl (fun a d => mergeEntityList a d.technologies) [],
        audiences := ds.foldl (fun a d => mergeEntityList a d.audiences) [],
        topics := ds.foldl (fun a d => mergeEntityList a d.topics) [] } :=
  mergeEntities_foldl ds emptyEntities

theorem mergeFold_invariant (cats : List (List String)) (h : ∀ c ∈ cats, CleanCat c)
    (acc : List String) (hnd : acc.Nodup) (hgood : ∀ e ∈ acc, e.length ≤ 40 ∧ e ≠ "") :
    MergedCat (acc.length + 12 * cats.length) (cats.foldl (fun a c => mergeEntityList a c) acc) := by
  induction cats generalizing acc with
  | nil => exact ⟨hnd, hgood, by simp⟩
  | cons c cats ih =>
    simp only [List.foldl_cons]
    have hc := h c (by simp)
    have hnd' : (mergeEntityList acc c).Nodup := mergeEntityList_nodup hnd c
    have hgood' : ∀ e ∈ mergeEntityList acc c, e.length ≤ 40 ∧ e ≠ "" := by
      intro e he
      rcases mergeEntityList_mem he with hacc | ⟨hin, hne⟩
      · exact hgood e hacc
      · exact ⟨(hc.2 e hin), hne⟩
    have hrec := ih (fun c' hm => h c' (by simp [hm])) (mergeEntityList acc c) hnd' hgood'
    refine ⟨hrec.1, hrec.2.1, ?_⟩
    have hlen := mergeEntityList_length acc c
    have hc1 := hc.1
    have hb := hrec.2.2
    simp only [List.length_cons] at *
    omega

theorem mergeFold_proj_invariant (ds : List EntityDict) (f : EntityDict → List String)
    (hf : ∀ d ∈ ds, CleanCat (f d)) :
    MergedCat (12 * ds.length) (ds.foldl (fun a d => mergeEntityList a (f d)) []) := by
  have h := mergeFold_invariant (ds.map f)
    (by intro c hc; obtain ⟨d, hd, rfl⟩ := List.mem_map.mp hc; exact hf d hd)
    [] (by simp) (by simp)
  rw [List.foldl_map] at h
  simpa using h

/-- C8 counterexample: the per-domain assembled entity lists are **not**
truncated to the source's fixed per-category cap of 12
(`entities[key][:12]`): merging the cleaned results of a domain with two
URLs, each contributing 12 distinct services, yields a 24-element category. -/
theorem C8_counterexample_merge_exceeds_cap :
    (mergeEntities [(extract_entities_for_domain (Except.ok C8_resultA)).1,
        (extract_entities_for_domain (Except.ok C8_resultB)).1]).services.length = 24 ∧
      ¬ ((mergeEntities [(extract_entities_for_domain (Except.ok C8_resultA)).1,
        (extract_entities_for_domain (Except.ok C8_resultB)).1]).services.length ≤ 12) :=
  ⟨rfl, by decide⟩

/-- C8 amended: in the per-domain assembled result, every category is
deduplicated case-sensitively, every label is non-empty and at most 40
characters, and the category size is bounded by 12 entities **per merged
URL** (each single cleaned extraction is capped at 12) — but there is no
fixed per-category cap independent of the number of URLs in the domain. -/
theorem C8_amended_merged_invariants (outs : List (Except String Json)) (cat : List String)
    (hcat : cat ∈
      [(mergeEntities (outs.map (fun o => (extract_entities_for_domain o).1))).services,
       (mergeEntities (outs.map (fun o => (extract_entities_for_domain o).1))).products,
       (mergeEntities (outs.map (fun o => (extract_entities_for_domain o).1))).technologies,
       (mergeEntities (outs.map (fun o => (extract_entities_for_domain o).1))).audiences,
       (mergeEntities (outs.map (fun o => (extract_entities_for_domain o).1))).topics]) :
    MergedCat (12 * outs.length) cat := by
  have hlen : (outs.map (fun o => (extract_entities_for_domain o).1)).length = outs.length := by
    simp
  rw [mergeEntities_eq] at hcat
  simp only [List.mem_cons, List.not_mem_nil, or_false] at hcat
  have hproj : ∀ f : EntityDict → List String,
      (∀ o : Except String Json, CleanCat (f (extract_entities_for_domain o).1)) →
      MergedCat (12 * outs.length)
        ((outs.map (fun o => (extract_entities_for_domain o).1)).foldl
          (fun a d => mergeEntityList a (f d)) []) := by
    intro f hf
    have := mergeFold_proj_invariant (outs.map (fun o => (extract_entities_for_domain o).1)) f
      (by intro d hd; obtain ⟨o, -, rfl⟩ := List.mem_map.mp hd; exact hf o)
    rwa [hlen] at this
  rcases hcat with rfl | rfl | rfl | rfl | rfl
  · exact hproj (fun d => d.services) (fun o => (extract_entities_clean o).1)
  · exact hproj (fun d => d.products) (fun o => (extract_entities_clean o).2.1)
  · exact hproj (fun d => d.technologies) (fun o => (extract_entities_clean o).2.2.1)
  · exact hproj (fun d => d.audiences) (fun o => (extract_entities_clean o).2.2.2.1)
  · exact hproj (fun d => d.topics) (fun o => (extract_entities_clean o).2.2.2.2)

theorem C8_amended_merged_invariants_witness :
    MergedCat (12 * 2)
      (mergeEntities ([Except.ok C8_resultA, Except.ok C8_resultB].map
        (fun o => (extract_entities_for_domain o).1))).services :=
  C8_amended_merged_invariants [Except.ok C8_resultA, Except.ok C8_resultB] _
    (List.mem_cons_self _ _)

theorem dictGet_cons {α : Type} (k' : String) (v : α) (t : List (String × α)) (k : String) :
    dictGet ((k', v) :: t) k = if k' = k then some v else dictGet t k := rfl

theorem dictInsert_cons {α : Type} (k' : String) (v' : α) (t : List (String × α)) (k : String)
    (v : α) :
    dictInsert ((k', v') :: t) k v =
      if k' = k then (k, v) :: t else (k', v') :: dictInsert t k v := rfl

/-- The `url_topics` dictionary of the two-target fallback scenario. -/
theorem C7_urlTopics (u1 u2 : String) (h : ¬ u1 = u2) (ts1 ts2 : List String) :
    fallbackUrlTopics (C7_scraped u1 u2) (C7_maps u1 u2 ts1 ts2) =
      [(u1, ts1.take 10), (u2, ts2.take 10)] := by
  simp [fallbackUrlTopics, C7_scraped, C7_maps, dictInsert, h]

/-- The similarity matrix of the two-target fallback scenario as an explicit
dictionary. -/
theorem C7_matrix (u1 u2 : String) (h : ¬ u1 = u2) (ut : List (String × List String)) :
    fallbackSimilarityMatrix ut [u1, u2] =
      [(u1, [(u1, fallbackSimScore ut u1 u1), (u2, fallbackSimScore ut u1 u2)]),
       (u2, [(u1, fallbackSimScore ut u2 u1), (u2, fallbackSimScore ut u2 u2)])] := by
  simp [fallbackSimilarityMatrix, dictInsert, h]

/-- Two-target fallback comparison: explicit form of the three matrix
entries reachable from `u1`'s row and the diagonal. -/
theorem two_target_fallback_matrix (u1 u2 : String) (h : u1 ≠ u2)
    (ts1 ts2 : List String) :
    matrixLookup ((fallback_comparison (C7_scraped u1 u2)
        (C7_maps u1 u2 ts1 ts2)).similarity_matrix) u1 u1 = some 1 ∧
      matrixLookup ((fallback_comparison (C7_scraped u1 u2)
        (C7_maps u1 u2 ts1 ts2)).similarity_matrix) u2 u2 = some 1 ∧
      matrixLookup ((fallback_comparison (C7_scraped u1 u2)
        (C7_maps u1 u2 ts1 ts2)).similarity_matrix) u1 u2 =
        some (if ts1.take 10 ≠ [] ∧ ts2.take 10 ≠ [] then
            round2frac ((ts1.take 10).toFinset ∩ (ts2.take 10).toFinset).card
              ((ts1.take 10).toFinset ∪ (ts2.take 10).toFinset).card
          else 3 / 10) := by
  have hM : (fallback_comparison (C7_scraped u1 u2) (C7_maps u1 u2 ts1 ts2)).similarity_matrix =
      fallbackSimilarityMatrix (fallbackUrlTopics (C7_scraped u1 u2) (C7_maps u1 u2 ts1 ts2))
        [u1, u2] := by
    simp [fallback_comparison, C7_maps]
  rw [hM, C7_urlTopics u1 u2 h ts1 ts2, C7_matrix u1 u2 h]
  have hget1 : dictGet [(u1, ts1.take 10), (u2, ts2.take 10)] u1 = some (ts1.take 10) := by
    simp [dictGet]
  have hget2 : dictGet [(u1, ts1.take 10), (u2, ts2.take 10)] u2 = some (ts2.take 10) := by
    simp [dictGet, h]
  refine ⟨?_, ?_, ?_⟩
  · simp [matrixLookup, dictGet, fallbackSimScore]
  · simp [matrixLookup, dictGet, h, fallbackSimScore]
  · have hscore : fallbackSimScore [(u1, ts1.take 10), (u2, ts2.take 10)] u1 u2 =
        (if ts1.take 10 ≠ [] ∧ ts2.take 10 ≠ [] then
          round2frac ((ts1.take 10).toFinset ∩ (ts2.take 10).toFinset).card
            ((ts1.take 10).toFinset ∪ (ts2.take 10).toFinset).card
        else 3 / 10) := by
      unfold fallbackSimScore
      rw [if_neg h, hget1, hget2]
      by_cases hne : ts1.take 10 ≠ [] ∧ ts2.take 10 ≠ []
      · have h1 : (ts1.take 10).toFinset.Nonempty := (List.toFinset_nonempty_iff _).mpr hne.1
        have h2 : (ts2.take 10).toFinset.Nonempty := (List.toFinset_nonempty_iff _).mpr hne.2
        have hu : 0 < ((ts1.take 10).toFinset ∪ (ts2.take 10).toFinset).card :=
          Finset.card_pos.mpr h1.inl
        simp only [Option.getD_some]
        rw [if_pos ⟨h1, h2⟩, if_pos hu, if_pos hne]
      · have hcond : ¬ ((ts1.take 10).toFinset.Nonempty ∧ (ts2.take 10).toFinset.Nonempty) := by
          simp only [List.toFinset_nonempty_iff]
          exact hne
        simp only [Option.getD_some]
        rw [if_neg hcond, if_neg hne]
    rw [matrixLookup]
    simp [dictGet, h, hscore]

/-- C7 amended, two-target form: in the non-AI fallback over two succeeded
targets with distinct URLs, each target's self-similarity is `1.0`, and the
cross score is the two-decimal rounded Jaccard index of the two key-topic
sets **truncated to their first 10 entries** — with the constant `0.3` when
either truncated set is empty; in particular key-topic sets
`{A,B,C}` and `{B,C,D}` score exactly `0.5`. -/
theorem C7_amended_fallback_similarity :
    (∀ (u1 u2 : String), u1 ≠ u2 → ∀ (ts1 ts2 : List String),
      matrixLookup ((fallback_comparison (C7_scraped u1 u2)
          (C7_maps u1 u2 ts1 ts2)).similarity_matrix) u1 u1 = some 1 ∧
        matrixLookup ((fallback_comparison (C7_scraped u1 u2)
          (C7_maps u1 u2 ts1 ts2)).similarity_matrix) u2 u2 = some 1 ∧
        matrixLookup ((fallback_comparison (C7_scraped u1 u2)
          (C7_maps u1 u2 ts1 ts2)).similarity_matrix) u1 u2 =
          some (if ts1.take 10 ≠ [] ∧ ts2.take 10 ≠ [] then
              round2frac ((ts1.take 10).toFinset ∩ (ts2.take 10).toFinset).card
                ((ts1.take 10).toFinset ∪ (ts2.take 10).toFinset).card
            else 3 / 10)) ∧
      matrixLookup ((fallback_comparison (C7_scraped "https://a.com" "https://b.com")
          (C7_maps "https://a.com" "https://b.com" ["A", "B", "C"]
            ["B", "C", "D"])).similarity_matrix) "https://a.com" "https://b.com" =
        some (1 / 2) := by
  refine ⟨fun u1 u2 h ts1 ts2 => two_target_fallback_matrix u1 u2 h ts1 ts2, ?_⟩
  have h := (two_target_fallback_matrix "https://a.com" "https://b.com"
    (by decide) ["A", "B", "C"] ["B", "C", "D"]).2.2
  rw [h]
  have hi : ((["A", "B", "C"].take 10).toFinset ∩ (["B", "C", "D"].take 10).toFinset).card = 2 := by
    decide
  have hu : ((["A", "B", "C"].take 10).toFinset ∪ (["B", "C", "D"].take 10).toFinset).card = 4 := by
    decide
  rw [if_pos (by decide), hi, hu]
  simp only [round2frac]
  norm_num

theorem C7_amended_fallback_similarity_witness :
    matrixLookup ((fallback_comparison (C7_scraped "https://a.com" "https://b.com")
        (C7_maps "https://a.com" "https://b.com" ["A", "B", "C"]
          ["B", "C", "D"])).similarity_matrix) "https://a.com" "https://a.com" = some 1 :=
  (C7_amended_fallback_similarity.1 "https://a.com" "https://b.com" (by decide)
    ["A", "B", "C"] ["B", "C", "D"]).1

/-- C7 counterexample: two succeeded targets whose key-topic sets have 11
elements each, 10 of them shared.  The Jaccard index of the key-topic sets
is `10/12`, which rounds to `0.83`, but the fallback score — computed over
only the first 10 topics of each — is `1.0`. -/
theorem C7_counterexample_truncation_breaks_jaccard :
    matrixLookup ((fallback_comparison (C7_scraped "https://a.com" "https://b.com")
        (C7_maps "https://a.com" "https://b.com" C7_topics1 C7_topics2)).similarity_matrix)
      "https://a.com" "https://b.com" = some 1 ∧
      round2frac (C7_topics1.toFinset ∩ C7_topics2.toFinset).card
        ((C7_topics1.toFinset ∪ C7_topics2.toFinset).card) = 83 / 100 ∧
      (1 : ℚ) ≠ 83 / 100 := by
  refine ⟨?_, ?_, by norm_num⟩
  · have h := (two_target_fallback_matrix "https://a.com" "https://b.com"
      (by decide) C7_topics1 C7_topics2).2.2
    rw [h]
    have hi : ((C7_topics1.take 10).toFinset ∩ (C7_topics2.take 10).toFinset).card = 10 := by
      decide
    have hu : ((C7_topics1.take 10).toFinset ∪ (C7_topics2.take 10).toFinset).card = 10 := by
      decide
    rw [if_pos (by decide), hi, hu]
    simp [round2frac]
  · have hi : (C7_topics1.toFinset ∩ C7_topics2.toFinset).card = 10 := by decide
    have hu : (C7_topics1.toFinset ∪ C7_topics2.toFinset).card = 12 := by decide
    rw [hi, hu]
    simp only [round2frac]
    norm_num

/-- C9: along any single `process_analysis` run — for every choice of
scrape results, stage outcomes and database behaviour — the sequence of step
indices readable from the progress tracker is non-decreasing, and the run's
final tracker entry is either status `complete` with step index equal to the
total step count and percentage 100, or status `failed`. -/
theorem C9_progress_monotone_and_terminal (urls : List String)
    (scrapeOutcome : String → Scraped) (graphOutcome : Option String)
    (topicalOutcome : Scraped → Except String TopicalMapData)
    (compOutcome : List WebsiteInfo → Except String Json)
    (dbMainOutcome dbFailureOutcome : Option String) (analysisId : String) :
    List.Chain' (· ≤ ·) (progressSteps analysisId
      (process_analysis urls scrapeOutcome graphOutcome topicalOutcome compOutcome
        dbMainOutcome dbFailureOutcome).ops) ∧
      ∃ e : PEntry,
        pt_get ((progressStates analysisId
          (process_analysis urls scrapeOutcome graphOutcome topicalOutcome compOutcome
            dbMainOutcome dbFailureOutcome).ops).getLastD []) analysisId = some e ∧
        ((e.status = "complete" ∧ e.current_step = e.total_steps ∧ e.percentage = 100) ∨
          e.status = "failed") := by
  rcases graphOutcome with - | ge
  · rcases hgm : generate_multiple (urls.map scrapeOutcome) topicalOutcome with e | maps
    · simp [process_analysis, hgm, failFinish, progressSteps, progressStates, applyOp,
        pt_create, pt_update, pt_complete, pt_fail, pt_get, dictGet, dictInsert, List.scanl]
    · rcases dbMainOutcome with - | de
      · simp [process_analysis, hgm, failFinish, progressSteps, progressStates, applyOp,
          pt_create, pt_update, pt_complete, pt_fail, pt_get, dictGet, dictInsert, List.scanl]
      · simp [process_analysis, hgm, failFinish, progressSteps, progressStates, applyOp,
          pt_create, pt_update, pt_complete, pt_fail, pt_get, dictGet, dictInsert, List.scanl]
  · simp [process_analysis, failFinish, progressSteps, progressStates, applyOp,
      pt_create, pt_update, pt_complete, pt_fail, pt_get, dictGet, dictInsert, List.scanl]

end WebAnalyzer
